import Mathlib

/-!
Shallow embedding of the USERMOD command module of InspIRCd
(src/include/modules.h, the `ModuleUserMod` part): the attribute registry,
the four built-in attribute descriptors, and the command dispatch logic
(`CommandUserMod::ModifyUser`, `CommandUserMod::Handle`,
`CommandUserMod::GetRouting`).

Machine model: users are identified by numeric ids (standing for the C++
`User*` pointers, so pointer equality becomes id equality); the server state
is an association list from id to user record together with the command
object member `attributes`. Server-wide configuration (`ServerInstance`,
`Config->Limits`, the `validhostchars` bitset) is an explicit `Env` record.
-/

set_option autoImplicit false

/-- Configuration and server-instance environment read by the validators:
the numeric limits from `Config->Limits`, the `validhostchars` bitset
(built by `ModuleUserMod::ReadConfig`), and the nick/ident grammar checks
`ServerInstance->IsNick` / `ServerInstance->IsIdent` (external collaborators,
kept abstract as boolean functions). -/
structure Env where
  MaxHost : Nat
  MaxReal : Nat
  IdentMax : Nat
  validhostchars : Char → Bool
  IsNick : String → Bool
  IsIdent : String → Bool

/-- One user record: the mutable fields this command can touch, the
registration state, locality (`IS_LOCAL`), and the set of oper privileges
the user holds. -/
structure UserRec where
  nick : String
  displayedHost : String
  realName : String
  ident : String
  registered : Nat
  isLocal : Bool
  privs : List String
deriving DecidableEq, Repr

/-- Registration state of a fully connected user (`target->registered != REG_ALL`
is the not-fully-registered test in `Handle`). -/
def REG_ALL : Nat := 7

/-- Modelled from the spec: `User::HasPrivPermission` is not under src/;
per the spec the privilege evaluator checks the derived token "against the
actor granted privileges", so it is membership in the user privilege set. -/
def HasPrivPermission (u : UserRec) (priv : String) : Bool :=
  u.privs.contains priv

/-- An attribute descriptor (`struct Attribute`): a mutator `ChangeValue`
and a validator `SyntaxCheck`. The validator reads the current configuration
at call time, so it takes the `Env` as an argument. -/
structure Attribute where
  ChangeValue : UserRec → String → UserRec
  SyntaxCheck : Env → String → Bool

/-- The host attribute (`struct HostAttribute`). `ChangeValue` delegates to
`User::ChangeDisplayedHost`, which is not under src/; modelled from the spec:
"sets the target displayed host". `SyntaxCheck` is translated from the source:
reject when the length exceeds `Limits.MaxHost`, then reject on the first
character not in the `validhostchars` bitset. -/
def HostAttribute : Attribute where
  ChangeValue target value := { target with displayedHost := value }
  SyntaxCheck env value :=
    if value.length > env.MaxHost then
      false
    else
      value.data.all (fun c => env.validhostchars c)

/-- The nick attribute (`struct NickAttribute`). `ChangeValue` delegates to
`User::ChangeNick`, which is not under src/; modelled from the spec:
"renames the target". `SyntaxCheck` is `ServerInstance->IsNick(value)`. -/
def NickAttribute : Attribute where
  ChangeValue target value := { target with nick := value }
  SyntaxCheck env value := env.IsNick value

/-- The real-name attribute (`struct RealAttribute`). `ChangeValue` delegates
to `User::ChangeRealName`, which is not under src/; modelled from the spec:
"sets the target free-text real name". `SyntaxCheck` is translated from the
source: `value.length() <= Limits.MaxReal`. -/
def RealAttribute : Attribute where
  ChangeValue target value := { target with realName := value }
  SyntaxCheck env value := value.length ≤ env.MaxReal

/-- The ident attribute (`struct UserAttribute`). `ChangeValue` delegates to
`User::ChangeIdent`, which is not under src/; modelled from the spec:
"sets the target ident/username". `SyntaxCheck` is translated from the
source: reject when the length exceeds `Limits.IdentMax`, else
`ServerInstance->IsIdent(value)`. -/
def UserAttribute : Attribute where
  ChangeValue target value := { target with ident := value }
  SyntaxCheck env value :=
    if value.length > env.IdentMax then
      false
    else
      env.IsIdent value

/-- Lower-casing of one character, for the case-insensitive key comparison. -/
def charLower (c : Char) : Char :=
  if 65 ≤ c.toNat ∧ c.toNat ≤ 90 then Char.ofNat (c.toNat + 32) else c

/-- Lower-casing of a string, character by character. -/
def strLower (s : String) : String :=
  String.mk (s.data.map charLower)

/-- Modelled from the spec: the key comparator `irc::insensitive_swo` of the
`AttributeMap` is not under src/; the spec says "lookups are by exact
case-insensitive name match", so two keys are equivalent when their
lower-casings coincide. -/
def insensitive_eq (a b : String) : Bool :=
  strLower a == strLower b

/-- The attribute registry type (`insp::flat_map<std::string, Attribute*,
irc::insensitive_swo>`), as an association list from name to descriptor. -/
def AttributeMap : Type := List (String × Attribute)

/-- Registry lookup (`attributes.find(attribute)`): the first entry whose key
matches the query case-insensitively, or none. -/
def AttributeMap.find (m : AttributeMap) (k : String) : Option Attribute :=
  (List.find? (fun p => insensitive_eq p.1 k) m).map Prod.snd

/-- The registry contents installed by the `CommandUserMod` constructor:
host, nick, real and user, in that order. -/
def CommandUserMod.attributes : AttributeMap :=
  [("host", HostAttribute), ("nick", NickAttribute),
   ("real", RealAttribute), ("user", UserAttribute)]

/-- The server+command state a dispatch can read and write: the command
member `attributes` and the user table (id to record). -/
structure State where
  attributes : AttributeMap
  users : List (Nat × UserRec)

/-- The state as constructed at module load: the registry filled by the
`CommandUserMod` constructor, plus whatever users exist. -/
def State.init (users : List (Nat × UserRec)) : State :=
  { attributes := CommandUserMod.attributes, users := users }

/-- A user record that stands for dereferencing an id absent from the table;
dispatch is only ever invoked on ids present in the table. -/
def emptyUser : UserRec :=
  { nick := "", displayedHost := "", realName := "", ident := ""
    registered := 0, isLocal := false, privs := [] }

/-- Dereference a user id in the state. -/
def getUser (st : State) (uid : Nat) : UserRec :=
  ((List.find? (fun p => p.1 == uid) st.users).map Prod.snd).getD emptyUser

/-- Overwrite the record of one user id. -/
def setUser (st : State) (uid : Nat) (u : UserRec) : State :=
  { st with users := st.users.map (fun p => if p.1 == uid then (p.1, u) else p) }

/-- Modelled from the spec: `ServerInstance->FindNick` (the EntityDirectory)
is not under src/; per the spec the target is resolved "via EntityDirectory
by targetName", so it is the first user whose nick is the queried name. -/
def FindNick (st : State) (n : String) : Option Nat :=
  (List.find? (fun p => p.2.nick == n) st.users).map Prod.fst

/-- The command result enumeration (`CmdResult`). -/
inductive CmdResult
  | CMD_FAILURE
  | CMD_SUCCESS
deriving DecidableEq, Repr

export CmdResult (CMD_FAILURE CMD_SUCCESS)

/-- One user-visible output of a dispatch: a `WriteNotice` text, or the
`Numerics::NoSuchNick` numeric naming the unknown nick. -/
inductive Output
  | notice (text : String)
  | numericNoSuchNick (nick : String)
deriving DecidableEq, Repr

/-- The derived privilege token: `InspIRCd::Format("usermod/%s-%s", attribute,
source == target ? "self" : "others")`. -/
def privToken (attributeName : String) (isSelf : Bool) : String :=
  "usermod/" ++ attributeName ++ "-" ++ (if isSelf then "self" else "others")

/-- Translation of `CommandUserMod::ModifyUser`: registry lookup, privilege
check, the (inverted, as in the source) `SyntaxCheck` gate, then `ChangeValue`
if and only if `IS_LOCAL(target)`. Returns the `CmdResult`, the outputs
written to `source`, and the post state. -/
def ModifyUser (env : Env) (st : State) (source target : Nat)
    (attributeName value : String) : CmdResult × List Output × State :=
  match AttributeMap.find st.attributes attributeName with
  | none =>
      (CMD_FAILURE,
       [Output.notice ("*** USERMOD: " ++ attributeName ++ " is not a valid user attribute!")],
       st)
  | some attrib =>
      let priv := privToken attributeName (source == target)
      if ¬ HasPrivPermission (getUser st source) priv then
        (CMD_FAILURE,
         [Output.notice ("*** USERMOD: The " ++ priv ++ " oper privilege is required to change "
            ++ (getUser st target).nick ++ "\x27s " ++ attributeName ++ "!")],
         st)
      else if attrib.SyntaxCheck env value then
        (CMD_FAILURE,
         [Output.notice ("*** USERMOD: The " ++ attributeName ++ " you specified is not valid!")],
         st)
      else if (getUser st target).isLocal then
        (CMD_SUCCESS, [], setUser st target (attrib.ChangeValue (getUser st target) value))
      else
        (CMD_SUCCESS, [], st)

/-- Translation of `CommandUserMod::Handle`: with 2 parameters the user
modifies themself; otherwise the target is resolved from `parameters[1]` and
must be fully registered; note the source passes `parameters[1]` again as the
value in the 3-parameter branch. -/
def Handle (env : Env) (st : State) (user : Nat) (parameters : List String) :
    CmdResult × List Output × State :=
  if parameters.length = 2 then
    ModifyUser env st user user (parameters.getD 0 "") (parameters.getD 1 "")
  else
    match FindNick st (parameters.getD 1 "") with
    | none =>
        (CMD_FAILURE, [Output.numericNoSuchNick (parameters.getD 1 "")], st)
    | some target =>
        if (getUser st target).registered ≠ REG_ALL then
          (CMD_FAILURE, [Output.numericNoSuchNick (parameters.getD 1 "")], st)
        else
          ModifyUser env st user target (parameters.getD 0 "") (parameters.getD 1 "")

/-- A routing decision; this command only ever produces `ROUTE_UNICAST`. -/
inductive RouteDescriptor
  | unicast (dest : String)
deriving DecidableEq, Repr

/-- `ROUTE_UNICAST(x)` of the source. -/
def ROUTE_UNICAST (dest : String) : RouteDescriptor :=
  RouteDescriptor.unicast dest

/-- Translation of `CommandUserMod::GetRouting`: unicast toward
`parameters[1]` with 3 parameters, else toward the actor own nick. -/
def GetRouting (st : State) (user : Nat) (parameters : List String) : RouteDescriptor :=
  ROUTE_UNICAST (if parameters.length = 3 then parameters.getD 1 "" else (getUser st user).nick)

/-! Concrete fixtures used by witnesses and bug-exhibiting theorems:
a configuration with the default host character map, and a small user table
(alice: local oper, bob: local, charlie: remote). -/

/-- A concrete configuration: default host charmap, usual limits. -/
def env0 : Env :=
  { MaxHost := 64, MaxReal := 128, IdentMax := 10,
    validhostchars := fun c =>
      c.isAlpha || c.isDigit || c == '.' || c == '-' || c == '_' || c == '/',
    IsNick := fun s => decide (s.length ≤ 30) && decide (s ≠ ""),
    IsIdent := fun s => decide (s ≠ "") }

/-- The same configuration with a host charmap that only accepts `x`. -/
def env0x : Env :=
  { env0 with validhostchars := fun c => c == 'x' }

/-- A local, fully registered user holding some usermod privileges. -/
def alice : UserRec :=
  { nick := "alice", displayedHost := "a.example", realName := "Alice", ident := "alice",
    registered := REG_ALL, isLocal := true,
    privs := ["usermod/host-self", "usermod/host-others", "usermod/real-others"] }

/-- A local, fully registered user with no privileges. -/
def bob : UserRec :=
  { nick := "bob", displayedHost := "b.example", realName := "Bob", ident := "bob",
    registered := REG_ALL, isLocal := true, privs := [] }

/-- A remote (not locally owned), fully registered user. -/
def charlie : UserRec :=
  { nick := "charlie", displayedHost := "c.example", realName := "Charlie", ident := "charlie",
    registered := REG_ALL, isLocal := false, privs := [] }

/-- The fixture state: alice is id 1, bob id 2, charlie id 3. -/
def st0 : State := State.init [(1, alice), (2, bob), (3, charlie)]

/-- The same configuration with a tiny real-name limit. -/
def env0r : Env :=
  { env0 with MaxReal := 2 }

/-! Small evaluation lemmas about the lower-casing of the registered names,
shared by the registry-lookup proofs. -/

theorem strLower_host : strLower "host" = "host" := rfl

theorem strLower_nick : strLower "nick" = "nick" := rfl

theorem strLower_real : strLower "real" = "real" := rfl

theorem strLower_user : strLower "user" = "user" := rfl

/-- Key comparison of a registry entry against a query, reduced to the
lower-casing of the query (for keys that are already lower case). -/
theorem insensitive_eq_of_lower (k s : String) (hk : strLower k = k) :
    insensitive_eq k s = (k == strLower s) := by
  unfold insensitive_eq
  rw [hk]


/-- C1: the source inverts the validation polarity. At a concrete input the
host validator accepts the value, yet `ModifyUser` fails with the
invalid-value notice and leaves the state unchanged; at an input the
validator rejects, the mutation is applied to the target. This contradicts
the claim that validation success permits the mutation and validation
failure prevents it. -/
theorem c1_validation_polarity_inverted :
    HostAttribute.SyntaxCheck env0 "valid.example" = true ∧
    ModifyUser env0 st0 1 1 "host" "valid.example" =
      (CMD_FAILURE,
       [Output.notice "*** USERMOD: The host you specified is not valid!"], st0) ∧
    HostAttribute.SyntaxCheck env0 "bad^host" = false ∧
    (ModifyUser env0 st0 1 1 "host" "bad^host").1 = CMD_SUCCESS ∧
    (getUser (ModifyUser env0 st0 1 1 "host" "bad^host").2.2 1).displayedHost = "bad^host" :=
  ⟨rfl, rfl, rfl, rfl, rfl⟩

/-- C2: in the 3-parameter form the source passes `parameters[1]` (the target
nick) to `ModifyUser` as the value instead of `parameters[2]`. At a concrete
input the dispatch succeeds and the target displayed host becomes the target
nick "bob", not the supplied third parameter. This contradicts the claim that
the value applied equals `parameters[2]`. -/
theorem c2_three_param_value_is_target_name :
    (Handle env0x st0 1 ["host", "bob", "newhost.example"]).1 = CMD_SUCCESS ∧
    (getUser (Handle env0x st0 1 ["host", "bob", "newhost.example"]).2.2 2).displayedHost
      = "bob" ∧
    ("bob" : String) ≠ "newhost.example" :=
  ⟨rfl, rfl, by decide⟩

/-- C3: `ChangeValue` is invoked only on locally owned targets: whenever the
target of `ModifyUser` is not locally owned, the post state equals the pre
state (no field of any user changes), on every path of the dispatch. -/
theorem c3_remote_target_no_mutation (env : Env) (st : State) (source target : Nat)
    (attributeName value : String) (h : (getUser st target).isLocal = false) :
    (ModifyUser env st source target attributeName value).2.2 = st := by
  unfold ModifyUser
  cases AttributeMap.find st.attributes attributeName with
  | none => rfl
  | some attrib =>
    simp only [h]
    split
    · rfl
    · split
      · rfl
      · simp [h]

/-- Witness for C3: charlie (id 3) is remote; a dispatch that reaches the
final step returns `CMD_SUCCESS` yet leaves the state unchanged. -/
theorem c3_remote_target_no_mutation_witness :
    (getUser st0 3).isLocal = false ∧
    (ModifyUser env0r st0 1 3 "real" "toolong").2.2 = st0 ∧
    (ModifyUser env0r st0 1 3 "real" "toolong").1 = CMD_SUCCESS :=
  ⟨rfl, c3_remote_target_no_mutation env0r st0 1 3 "real" "toolong" rfl, rfl⟩

/-- C5: when the attribute name is not in the registry, `ModifyUser` fails
with the notice naming the invalid attribute and returns the state unchanged;
the result does not depend on the privilege set, the validators or the value. -/
theorem c5_unknown_attribute (env : Env) (st : State) (source target : Nat)
    (attributeName value : String)
    (h : AttributeMap.find st.attributes attributeName = none) :
    ModifyUser env st source target attributeName value =
      (CMD_FAILURE,
       [Output.notice ("*** USERMOD: " ++ attributeName ++ " is not a valid user attribute!")],
       st) := by
  unfold ModifyUser
  rw [h]

/-- Witness for C5: "frobnicate" is not a registered attribute. -/
theorem c5_unknown_attribute_witness :
    AttributeMap.find st0.attributes "frobnicate" = none ∧
    ModifyUser env0 st0 1 1 "frobnicate" "somevalue" =
      (CMD_FAILURE,
       [Output.notice "*** USERMOD: frobnicate is not a valid user attribute!"], st0) :=
  ⟨rfl, c5_unknown_attribute env0 st0 1 1 "frobnicate" "somevalue" rfl⟩

/-- C8: the routing destination is unicast toward `parameters[1]` when exactly
3 parameters were supplied, and toward the actor own nick when exactly 2 were. -/
theorem c8_routing_destination (st : State) (user : Nat) (parameters : List String) :
    (parameters.length = 3 →
      GetRouting st user parameters = ROUTE_UNICAST (parameters.getD 1 "")) ∧
    (parameters.length = 2 →
      GetRouting st user parameters = ROUTE_UNICAST ((getUser st user).nick)) := by
  constructor <;> intro h <;> simp [GetRouting, h]

/-- Witness for C8: a 3-parameter invocation routes toward "bob"; a
2-parameter one routes toward the actor nick "alice". -/
theorem c8_routing_destination_witness :
    GetRouting st0 1 ["host", "bob", "v"] = ROUTE_UNICAST "bob" ∧
    GetRouting st0 1 ["host", "v"] = ROUTE_UNICAST "alice" :=
  ⟨(c8_routing_destination st0 1 ["host", "bob", "v"]).1 rfl,
   ((c8_routing_destination st0 1 ["host", "v"]).2 rfl).trans (by rfl)⟩

/-- C4: when the attribute is registered and the source lacks the derived
privilege token, the token is exactly "usermod/" ++ attribute ++ "-self" for
a self-targeted change and "-others" otherwise, the dispatch fails, the
notice names that exact token, and the state is unchanged (the result does
not depend on the value or on any validator). -/
theorem c4_privilege_check (env : Env) (st : State) (source target : Nat)
    (attributeName value : String)
    (hfound : (AttributeMap.find st.attributes attributeName).isSome = true)
    (hpriv : HasPrivPermission (getUser st source)
        (privToken attributeName (source == target)) = false) :
    privToken attributeName (source == target) =
      "usermod/" ++ attributeName ++ "-" ++ (if source = target then "self" else "others") ∧
    ModifyUser env st source target attributeName value =
      (CMD_FAILURE,
       [Output.notice ("*** USERMOD: The " ++ privToken attributeName (source == target)
          ++ " oper privilege is required to change " ++ (getUser st target).nick
          ++ "\x27s " ++ attributeName ++ "!")],
       st) := by
  constructor
  · by_cases h : source = target <;> simp [privToken, h]
  · unfold ModifyUser
    cases hf : AttributeMap.find st.attributes attributeName with
    | none => rw [hf] at hfound; simp at hfound
    | some attrib => simp [hpriv]

/-- Witness for C4: alice (id 1) does not hold usermod/nick-others, so
changing the nick of bob (id 2) fails with the notice naming that token. -/
theorem c4_privilege_check_witness :
    privToken "nick" ((1 : Nat) == 2) =
      "usermod/" ++ "nick" ++ "-" ++ (if (1 : Nat) = 2 then "self" else "others") ∧
    ModifyUser env0 st0 1 2 "nick" "newnick" =
      (CMD_FAILURE,
       [Output.notice ("*** USERMOD: The " ++ privToken "nick" ((1 : Nat) == 2)
          ++ " oper privilege is required to change " ++ (getUser st0 2).nick
          ++ "\x27s " ++ "nick" ++ "!")],
       st0) :=
  c4_privilege_check env0 st0 1 2 "nick" "newnick" rfl rfl

/-- C6: in the 3-parameter form, when the nick lookup of `parameters[1]`
finds nothing, or finds only a not fully registered user, `Handle` fails
with the no-such-nick numeric naming `parameters[1]` and changes nothing;
the result does not depend on the registry, the privileges or the validators. -/
theorem c6_no_such_nick (env : Env) (st : State) (user : Nat)
    (parameters : List String) (h3 : parameters.length = 3)
    (h : ∀ t, FindNick st (parameters.getD 1 "") = some t →
          (getUser st t).registered ≠ REG_ALL) :
    Handle env st user parameters =
      (CMD_FAILURE, [Output.numericNoSuchNick (parameters.getD 1 "")], st) := by
  unfold Handle
  rw [if_neg (by omega)]
  cases hf : FindNick st (parameters.getD 1 "") with
  | none => rfl
  | some t => exact if_pos (h t hf)

/-- Witness for C6: no user of st0 has the nick "ghost". -/
theorem c6_no_such_nick_witness :
    Handle env0 st0 1 ["host", "ghost", "x"] =
      (CMD_FAILURE, [Output.numericNoSuchNick "ghost"], st0) :=
  c6_no_such_nick env0 st0 1 ["host", "ghost", "x"] rfl
    (by
      intro t ht
      exact Option.noConfusion ((show (none : Option Nat) =
        FindNick st0 (["host", "ghost", "x"].getD 1 "") from rfl).trans ht))

/-- C7: the host validator accepts a value exactly when its length is within
`MaxHost` and every character is in the `validhostchars` set; any over-length
value is rejected whatever its characters, and any value with a character
outside the set is rejected whatever its length. -/
theorem c7_host_validator (env : Env) (value : String) :
    (HostAttribute.SyntaxCheck env value = true ↔
      (value.length ≤ env.MaxHost ∧ ∀ c ∈ value.data, env.validhostchars c = true)) ∧
    (env.MaxHost < value.length → HostAttribute.SyntaxCheck env value = false) ∧
    ((∃ c ∈ value.data, env.validhostchars c = false) →
      HostAttribute.SyntaxCheck env value = false) := by
  have hiff : HostAttribute.SyntaxCheck env value = true ↔
      (value.length ≤ env.MaxHost ∧ ∀ c ∈ value.data, env.validhostchars c = true) := by
    show (if value.length > env.MaxHost then false
          else value.data.all (fun c => env.validhostchars c)) = true ↔ _
    by_cases hl : value.length > env.MaxHost
    · simp only [if_pos hl]
      constructor
      · intro h; exact Bool.noConfusion h
      · intro h; omega
    · simp only [if_neg hl, List.all_eq_true]
      constructor
      · intro h; exact ⟨Nat.not_lt.mp hl, h⟩
      · intro h; exact h.2
  refine ⟨hiff, ?_, ?_⟩
  · intro hl
    cases hres : HostAttribute.SyntaxCheck env value
    · rfl
    · exact absurd (hiff.mp hres).1 (by omega)
  · rintro ⟨c, hc, hbad⟩
    cases hres : HostAttribute.SyntaxCheck env value
    · rfl
    · have hgood := (hiff.mp hres).2 c hc
      rw [hbad] at hgood
      exact Bool.noConfusion hgood

/-- Witness for C7: under the default charmap, a value containing a caret is
rejected although it is short enough. -/
theorem c7_host_validator_witness :
    HostAttribute.SyntaxCheck env0 "bad^host" = false :=
  (c7_host_validator env0 "bad^host").2.2 ⟨'^', by decide, by decide⟩

/-- C9: registry lookup is exactly case-insensitive: any query whose
lower-casing is one of the registered names host, nick, real, user returns
that name's descriptor (hence the same descriptor as looking up the
registered name itself), and any other query returns none - lookup never
partially matches. -/
theorem c9_registry_lookup (s : String) :
    (strLower s = "host" →
      AttributeMap.find CommandUserMod.attributes s = some HostAttribute) ∧
    (strLower s = "nick" →
      AttributeMap.find CommandUserMod.attributes s = some NickAttribute) ∧
    (strLower s = "real" →
      AttributeMap.find CommandUserMod.attributes s = some RealAttribute) ∧
    (strLower s = "user" →
      AttributeMap.find CommandUserMod.attributes s = some UserAttribute) ∧
    (strLower s ≠ "host" → strLower s ≠ "nick" → strLower s ≠ "real" →
     strLower s ≠ "user" →
      AttributeMap.find CommandUserMod.attributes s = none) := by
  have e1 : insensitive_eq "host" s = ("host" == strLower s) :=
    insensitive_eq_of_lower _ _ strLower_host
  have e2 : insensitive_eq "nick" s = ("nick" == strLower s) :=
    insensitive_eq_of_lower _ _ strLower_nick
  have e3 : insensitive_eq "real" s = ("real" == strLower s) :=
    insensitive_eq_of_lower _ _ strLower_real
  have e4 : insensitive_eq "user" s = ("user" == strLower s) :=
    insensitive_eq_of_lower _ _ strLower_user
  refine ⟨?_, ?_, ?_, ?_, ?_⟩
  · intro h
    simp [AttributeMap.find, CommandUserMod.attributes, List.find?, e1, h]
  · intro h
    simp [AttributeMap.find, CommandUserMod.attributes, List.find?, e1, e2, h]
  · intro h
    simp [AttributeMap.find, CommandUserMod.attributes, List.find?, e1, e2, e3, h]
  · intro h
    simp [AttributeMap.find, CommandUserMod.attributes, List.find?, e1, e2, e3, e4, h]
  · intro h1 h2 h3 h4
    have b1 : ("host" == strLower s) = false := beq_eq_false_iff_ne.mpr (Ne.symm h1)
    have b2 : ("nick" == strLower s) = false := beq_eq_false_iff_ne.mpr (Ne.symm h2)
    have b3 : ("real" == strLower s) = false := beq_eq_false_iff_ne.mpr (Ne.symm h3)
    have b4 : ("user" == strLower s) = false := beq_eq_false_iff_ne.mpr (Ne.symm h4)
    simp [AttributeMap.find, CommandUserMod.attributes, List.find?,
      e1, e2, e3, e4, b1, b2, b3, b4]

/-- Witness for C9: the mixed-case query "HoSt" finds the host descriptor,
the same one that the lookup of "host" itself returns. -/
theorem c9_registry_lookup_witness :
    strLower "HoSt" = "host" ∧
    AttributeMap.find CommandUserMod.attributes "HoSt" = some HostAttribute ∧
    AttributeMap.find CommandUserMod.attributes "host" = some HostAttribute :=
  ⟨rfl, (c9_registry_lookup "HoSt").1 rfl, (c9_registry_lookup "host").1 rfl⟩

/-- C10: the registry is a dispatch invariant: the state built at module
load carries exactly the four descriptors host, nick, real, user, and the
`attributes` member of the state is unchanged by every `ModifyUser` and
every `Handle` invocation (`GetRouting` returns no state at all). -/
theorem c10_registry_invariant (env : Env) (st : State) (user : Nat)
    (parameters : List String) (source target : Nat) (attributeName value : String) :
    State.init st.users =
      { attributes := [("host", HostAttribute), ("nick", NickAttribute),
                       ("real", RealAttribute), ("user", UserAttribute)],
        users := st.users } ∧
    (ModifyUser env st source target attributeName value).2.2.attributes = st.attributes ∧
    (Handle env st user parameters).2.2.attributes = st.attributes := by
  have hm : ∀ (src tgt : Nat) (a v : String),
      (ModifyUser env st src tgt a v).2.2.attributes = st.attributes := by
    intro src tgt a v
    unfold ModifyUser
    cases AttributeMap.find st.attributes a with
    | none => rfl
    | some attrib =>
      by_cases hp : HasPrivPermission (getUser st src) (privToken a (src == tgt)) = true
      · by_cases hs : attrib.SyntaxCheck env v = true
        · simp [hp, hs]
        · by_cases hl : (getUser st tgt).isLocal = true
          · simp [hp, hs, hl, setUser]
          · simp [hp, hs, hl]
      · simp [hp]
  refine ⟨rfl, hm source target attributeName value, ?_⟩
  unfold Handle
  by_cases h2 : parameters.length = 2
  · rw [if_pos h2]
    exact hm _ _ _ _
  · rw [if_neg h2]
    cases FindNick st (parameters.getD 1 "") with
    | none => rfl
    | some t =>
      show (if (getUser st t).registered ≠ REG_ALL then
              (CMD_FAILURE, [Output.numericNoSuchNick (parameters.getD 1 "")], st)
            else
              ModifyUser env st user t (parameters.getD 0 "")
                (parameters.getD 1 "")).2.2.attributes = st.attributes
      by_cases hr : (getUser st t).registered ≠ REG_ALL
      · rw [if_pos hr]
      · rw [if_neg hr]
        exact hm _ _ _ _
